import Mathlib

/-!
Shallow embedding of the parametric implied-volatility surface calibration and
query engine of `financepy/market/volatility/equity_vol_surface.py`.

Conventions of the embedding:
* Python floats are modelled as exact rationals (`ℚ`).
* `Date` arithmetic is external to the subsystem; dates are modelled as rational
  day counts, so `expiry_date - valuation_date` is rational subtraction.
* External numerical collaborators that live outside the surveyed subsystem
  (`np.exp`, `np.log`, `np.sqrt`, `norminvcdf`, `bs_delta`) are fields of an
  `Externals` record, and the discount/dividend curves are abstract functions
  from time to discount factor, mirroring the spec's "external collaborators"
  boundary.
* The eight parametric smile formulas (`vol_function_clark`, SABR variants,
  Bloomberg, SVI, SSVI) live in modules outside the surveyed source; the
  dispatcher `volFunction` is embedded faithfully over a record of their
  implementations (`VolImpls`).
* Python exceptions are modelled with `Except PyErr`.
-/

namespace EquityVolSurfacePy

/-- The smile-family discriminant `FinVolFunctionTypes` (models/volatility_fns). -/
inductive FinVolFunctionTypes
  | CLARK
  | SABR
  | SABR_BETA_ONE
  | SABR_BETA_HALF
  | BBG
  | CLARK5
  | SVI
  | SSVI
deriving DecidableEq, Repr

/-- The optimizer-method discriminant `FinSolverTypes` (utils/global_types). -/
inductive FinSolverTypes
  | CONJUGATE_GRADIENT
  | NELDER_MEAD
  | NELDER_MEAD_NUMBA
deriving DecidableEq, Repr

/-- The option-right discriminant `FinOptionTypes` (utils/global_types); only the
European rights are relevant to the surveyed code. -/
inductive FinOptionTypes
  | EUROPEAN_CALL
  | EUROPEAN_PUT
deriving DecidableEq, Repr

/-- Python exceptions that can surface from the embedded subsystem. -/
inductive PyErr
  /-- `FinError("Negative variance.")` and
  `FinError("Failed interpolation due to negative variance.")`. -/
  | negativeVariance
  /-- Non-convergence error surfaced by the 1-D strike solver (spec section 4.2). -/
  | strikeSolveFailed
  /-- `UnboundLocalError` for `xopt` when `_solveToHorizon` falls through its
  `except` block without assigning `xopt`. -/
  | unboundLocalXopt
  /-- An exception raised inside an optimizer call (`scipy.optimize.minimize` or
  the numba `nelder_mead`); the payload distinguishes concrete exceptions. -/
  | optimizerRaised (code : ℕ)
deriving DecidableEq, Repr

/-- A parameter vector (a numpy 1-D array of floats). -/
abbrev Vec := List ℚ

instance {ε α : Type} [DecidableEq ε] [DecidableEq α] : DecidableEq (Except ε α) := fun x y =>
  match x, y with
  | .ok a, .ok b =>
    if h : a = b then isTrue (by rw [h]) else isFalse (by intro hc; cases hc; exact h rfl)
  | .error a, .error b =>
    if h : a = b then isTrue (by rw [h]) else isFalse (by intro hc; cases hc; exact h rfl)
  | .ok _, .error _ => isFalse (by intro hc; cases hc)
  | .error _, .ok _ => isFalse (by intro hc; cases hc)

/-- Implementations of the eight parametric smile formulas, each mapping
`(params, forward, strike, time)` to a volatility.  The formulas themselves are
outside the surveyed source (models/volatility_fns, models/sabr). -/
structure VolImpls where
  clark : Vec → ℚ → ℚ → ℚ → ℚ
  sabr : Vec → ℚ → ℚ → ℚ → ℚ
  sabrBetaOne : Vec → ℚ → ℚ → ℚ → ℚ
  sabrBetaHalf : Vec → ℚ → ℚ → ℚ → ℚ
  bloomberg : Vec → ℚ → ℚ → ℚ → ℚ
  svi : Vec → ℚ → ℚ → ℚ → ℚ
  ssvi : Vec → ℚ → ℚ → ℚ → ℚ

/-- `volFunction(vol_function_type_value, params, f, k, t)`: dispatch on the
smile-family discriminant (equity_vol_surface.py lines 130-161).  Note that the
source dispatches both `CLARK` and `CLARK5` to `vol_function_clark`. -/
def volFunction (impls : VolImpls) :
    FinVolFunctionTypes → Vec → ℚ → ℚ → ℚ → ℚ
  | .CLARK, params, f, k, t => impls.clark params f k t
  | .SABR_BETA_ONE, params, f, k, t => impls.sabrBetaOne params f k t
  | .SABR_BETA_HALF, params, f, k, t => impls.sabrBetaHalf params f k t
  | .BBG, params, f, k, t => impls.bloomberg params f k t
  | .SABR, params, f, k, t => impls.sabr params f k t
  | .CLARK5, params, f, k, t => impls.clark params f k t
  | .SVI, params, f, k, t => impls.svi params f k t
  | .SSVI, params, f, k, t => impls.ssvi params f k t

/-- External mathematical collaborators used by the subsystem:
`np.exp`, `np.log`, `np.sqrt`, `norminvcdf` (utils/math) and `bs_delta`
(models/black_scholes_analytic), all outside the surveyed source. -/
structure Externals where
  exp : ℚ → ℚ
  log : ℚ → ℚ
  sqrt : ℚ → ℚ
  norminvcdf : ℚ → ℚ
  /-- `bs_delta(s, t, k, r, q, v, option_type_value)`. -/
  bs_delta : ℚ → ℚ → ℚ → ℚ → ℚ → ℚ → FinOptionTypes → ℚ

/-- `gDaysInYear` (utils/global_vars): the day-count denominator converting a
day difference between two dates into a year fraction. -/
def gDaysInYear : ℚ := 365

/-- The tolerance `1e-6` used both by `_solveToHorizon` and by the
`np.abs(t1-t0) > 1e-6` interpolation guard. -/
def tol6 : ℚ := 1 / 1000000

/-- The tolerance `1e-8` passed by `_solveForSmileStrike` to `newton_secant`. -/
def tol8 : ℚ := 1 / 100000000

/-!  ### Per-expiry calibrator (`_solveToHorizon`, lines 86-125)  -/

/-- The observable outcome of one optimizer call: the returned parameter vector
together with the optimizer's own convergence report (`opt.success` for scipy;
the surveyed code never reads this flag). -/
structure OptResult where
  x : Vec
  converged : Bool
deriving DecidableEq, Repr

/-- An optimizer oracle: running the minimisation of `_obj` with a given method
either raises (`.error`) or returns an `OptResult` (converged or not). -/
abbrev OptRun := FinSolverTypes → Except PyErr OptResult

/-- `_solveToHorizon` (lines 86-125): run the primary optimizer inside
`try/except`; on an exception, if the primary was not conjugate-gradient, run
conjugate-gradient once and use its result; the returned vector is taken from
whichever call last assigned `xopt`, with no convergence check.  If the primary
was conjugate-gradient and raised, the `except` block does nothing and
`params = np.array(xopt)` fails with an unbound-local error.
The second component records the optimizer attempts in order. -/
def _solveToHorizon (run : OptRun) (finSolverType : FinSolverTypes) :
    Except PyErr Vec × List FinSolverTypes :=
  match run finSolverType with
  | .ok res => (.ok res.x, [finSolverType])
  | .error _ =>
    if finSolverType ≠ FinSolverTypes.CONJUGATE_GRADIENT then
      match run FinSolverTypes.CONJUGATE_GRADIENT with
      | .ok res => (.ok res.x, [finSolverType, FinSolverTypes.CONJUGATE_GRADIENT])
      | .error e2 => (.error e2, [finSolverType, FinSolverTypes.CONJUGATE_GRADIENT])
    else
      (.error PyErr.unboundLocalXopt, [finSolverType])

/-!  ### Delta-implied-strike solver (`_deltaFit`, `_solveForSmileStrike`)  -/

/-- `_deltaFit(k, *args)` (lines 166-189): the objective of the strike solve,
mapped into inverse-normal-cdf space. -/
def _deltaFit (ext : Externals) (impls : VolImpls) (volTypeValue : FinVolFunctionTypes)
    (s t r q : ℚ) (option_type_value : FinOptionTypes)
    (inverseDeltaTarget : ℚ) (params : Vec) (k : ℚ) : ℚ :=
  let f := s * ext.exp ((r - q) * t)
  let v := volFunction impls volTypeValue params f k t
  let deltaOut := ext.bs_delta s t k r q v option_type_value
  let inverseDeltaOut := ext.norminvcdf |deltaOut|
  inverseDeltaTarget - inverseDeltaOut

/-- Modelled from the spec: the secant iteration inside `newton_secant`
(utils/solver_1d, not under src/).  One fuel-indexed loop step: declare
convergence when the objective at the current iterate is within the tolerance,
otherwise take a secant step; with no fuel left (or a degenerate zero secant
denominator) the solver surfaces a non-convergence error rather than returning
the stale iterate. -/
def secantLoop (f : ℚ → ℚ) (tol : ℚ) : ℕ → ℚ → ℚ → Except PyErr ℚ
  | 0, _, _ => .error PyErr.strikeSolveFailed
  | fuel + 1, p0, p1 =>
    if |f p1| ≤ tol then
      .ok p1
    else
      let denom := f p1 - f p0
      if denom = 0 then
        .error PyErr.strikeSolveFailed
      else
        secantLoop f tol fuel p1 (p1 - f p1 * (p1 - p0) / denom)

/-- Modelled from the spec: `newton_secant(func, x0, args, tol, maxiter)`
(utils/solver_1d, not under src/).  A secant-Newton style 1-D root search
started from `x0` (with the conventional relative perturbation for the second
secant point), running at most `maxiter` iterations, converging when the
objective is within `tol`, and surfacing a failure instead of an unconverged
guess (spec section 4.2). -/
def newton_secant (f : ℚ → ℚ) (x0 tol : ℚ) (maxiter : ℕ) : Except PyErr ℚ :=
  secantLoop f tol maxiter x0 (x0 * (1 + 1 / 10000))

/-- `_solveForSmileStrike` (lines 196-218): solve for the strike whose delta
matches the target, with tolerance `1e-8` and at most `50` iterations. -/
def _solveForSmileStrike (ext : Externals) (impls : VolImpls)
    (s t r q : ℚ) (option_type_value : FinOptionTypes)
    (volatilityTypeValue : FinVolFunctionTypes)
    (deltaTarget initialGuess : ℚ) (parameters : Vec) : Except PyErr ℚ :=
  let inverseDeltaTarget := ext.norminvcdf |deltaTarget|
  newton_secant
    (_deltaFit ext impls volatilityTypeValue s t r q option_type_value
      inverseDeltaTarget parameters)
    initialGuess tol8 50

/-!  ### Surface container and bracket selection  -/

/-- The calibrated per-expiry state of an `EquityVolSurface` (the arrays the
queries read: `_texp`, `_F0T`, `_r`, `_q`, `_parameters`), together with the
construction inputs the queries use. -/
structure EquityVolSurface where
  valuation_date : ℚ
  stock_price : ℚ
  volatility_function_type : FinVolFunctionTypes
  texp : List ℚ
  F0T : List ℚ
  r : List ℚ
  q : List ℚ
  parameters : List Vec

/-- The scan of the final `else` branch of the bracket selection
(`for i in range(1, num_curves): if texp <= texp[i] and texp > texp[i-1]`):
walk adjacent pairs and return the first `(i-1, i)` window containing `texp`;
if no window matches, the indices keep their initial value `(0, 0)`. -/
def bracketScanAux (texp : ℚ) : List ℚ → ℕ → ℕ × ℕ
  | t0 :: t1 :: rest, i =>
    if texp ≤ t1 ∧ texp > t0 then (i, i + 1)
    else bracketScanAux texp (t1 :: rest) (i + 1)
  | _, _ => (0, 0)

/-- Bracket selection of `volatilityFromStrikeDate` (lines 292-321); the
beyond-the-last-expiry branch uses `texp >= self._texp[-1]`. -/
def strikeBracket (texps : List ℚ) (texp : ℚ) : ℕ × ℕ :=
  let n := texps.length
  if n = 1 then (0, 0)
  else if texp ≤ texps.getD 0 0 then (0, 0)
  else if texp ≥ texps.getD (n - 1) 0 then (n - 1, n - 1)
  else bracketScanAux texp texps 0

/-- Bracket selection of `volatilityFromDeltaDate` (lines 473-503); the
beyond-the-last-expiry branch uses the strict `texp > self._texp[-1]`. -/
def deltaBracket (texps : List ℚ) (texp : ℚ) : ℕ × ℕ :=
  let n := texps.length
  if n = 1 then (0, 0)
  else if texp ≤ texps.getD 0 0 then (0, 0)
  else if texp > texps.getD (n - 1) 0 then (n - 1, n - 1)
  else bracketScanAux texp texps 0

/-- The year fraction a query computes from its expiry date:
`texp = (expiry_date - self._valuation_date) / gDaysInYear`. -/
def queryTexp (surf : EquityVolSurface) (expiry_date : ℚ) : ℚ :=
  (expiry_date - surf.valuation_date) / gDaysInYear

/-- `volatilityFromStrikeDate(K, expiry_date)` (lines 277-357). -/
def volatilityFromStrikeDate (ext : Externals) (impls : VolImpls)
    (surf : EquityVolSurface) (K expiry_date : ℚ) : Except PyErr ℚ :=
  let texp := queryTexp surf expiry_date
  let volTypeValue := surf.volatility_function_type
  let idx := strikeBracket surf.texp texp
  let index0 := idx.1
  let index1 := idx.2
  let fwd0 := surf.F0T.getD index0 0
  let fwd1 := surf.F0T.getD index1 0
  let t0 := surf.texp.getD index0 0
  let t1 := surf.texp.getD index1 0
  let vol0 := volFunction impls volTypeValue (surf.parameters.getD index0 []) fwd0 K t0
  let vol1 :=
    if index1 ≠ index0 then
      volFunction impls volTypeValue (surf.parameters.getD index1 []) fwd1 K t1
    else vol0
  let vart0 := vol0 * vol0 * t0
  let vart1 := vol1 * vol1 * t1
  if |t1 - t0| > tol6 then
    let vart := ((texp - t0) * vart1 + (t1 - texp) * vart0) / (t1 - t0)
    if vart < 0 then .error PyErr.negativeVariance
    else .ok (ext.sqrt (vart / texp))
  else
    .ok vol1

/-- `volatilityFromDeltaDate(callDelta, expiry_date, deltaMethod=None)`
(lines 455-560), returning `(volt, kt)`.  The optional `deltaMethod` argument
is accepted but never read by the body.  On the `index1 = index0` path the
source leaves `K1` unbound and sets `vol1 = vol0`; that path always has
`t1 = t0`, so the final branch returns `(vol0, K0)` without reading `K1`; the
embedding supplies `(vol0, K0)` there, which is observationally identical. -/
def volatilityFromDeltaDate {α : Type} (ext : Externals) (impls : VolImpls)
    (surf : EquityVolSurface) (callDelta expiry_date : ℚ)
    (deltaMethod : Option α) : Except PyErr (ℚ × ℚ) :=
  let texp := queryTexp surf expiry_date
  let volTypeValue := surf.volatility_function_type
  let s := surf.stock_price
  let idx := deltaBracket surf.texp texp
  let index0 := idx.1
  let index1 := idx.2
  let fwd0 := surf.F0T.getD index0 0
  let fwd1 := surf.F0T.getD index1 0
  let t0 := surf.texp.getD index0 0
  let t1 := surf.texp.getD index1 0
  let initialGuess := surf.stock_price
  match _solveForSmileStrike ext impls s texp (surf.r.getD index0 0) (surf.q.getD index0 0)
      FinOptionTypes.EUROPEAN_CALL volTypeValue callDelta initialGuess
      (surf.parameters.getD index0 []) with
  | .error e => .error e
  | .ok K0 =>
    let vol0 := volFunction impls volTypeValue (surf.parameters.getD index0 []) fwd0 K0 t0
    let leg1 : Except PyErr (ℚ × ℚ) :=
      if index1 ≠ index0 then
        match _solveForSmileStrike ext impls s texp (surf.r.getD index1 0) (surf.q.getD index1 0)
            FinOptionTypes.EUROPEAN_CALL volTypeValue callDelta initialGuess
            (surf.parameters.getD index1 []) with
        | .error e => .error e
        | .ok K1 =>
          .ok (K1, volFunction impls volTypeValue (surf.parameters.getD index1 []) fwd1 K1 t1)
      else
        .ok (K0, vol0)
    match leg1 with
    | .error e => .error e
    | .ok (K1, vol1) =>
      let vart0 := vol0 * vol0 * t0
      let vart1 := vol1 * vol1 * t1
      if |t1 - t0| > tol6 then
        let vart := ((texp - t0) * vart1 + (t1 - texp) * vart0) / (t1 - t0)
        let kt := ((texp - t0) * K1 + (t1 - texp) * K0) / (t1 - t0)
        if vart < 0 then .error PyErr.negativeVariance
        else .ok (ext.sqrt (vart / texp), kt)
      else
        .ok (vol0, K0)

/-!  ### Construction (`_buildVolSurface`, lines 564-645)  -/

/-- The per-family parameter count chosen by `_buildVolSurface`
(lines 569-587). -/
def numParameters : FinVolFunctionTypes → ℕ
  | .CLARK => 3
  | .SABR_BETA_ONE => 3
  | .SABR_BETA_HALF => 3
  | .BBG => 3
  | .SABR => 4
  | .CLARK5 => 5
  | .SVI => 5
  | .SSVI => 5

/-- `np.zeros(num_parameters)`. -/
def zeroVec (n : ℕ) : Vec := List.replicate n 0

/-- The first loop of `_buildVolSurface` (lines 604-616): for each expiry date,
the year fraction, forward, zero rate and dividend yield,
`texp = (expiry_date - spotDate)/gDaysInYear`, `f = s * divDF/disDF`,
`r = -log(disDF)/texp`, `q = -log(divDF)/texp`.  The discount and dividend
curves enter only through their `_df` query, modelled as functions. -/
def buildTermStructure (ext : Externals) (valuation_date stock_price : ℚ)
    (discount_df dividend_df : ℚ → ℚ) (expiry_dates : List ℚ) :
    List ℚ × List ℚ × List ℚ × List ℚ :=
  let texps := expiry_dates.map (fun d => (d - valuation_date) / gDaysInYear)
  (texps,
   texps.map (fun t => stock_price * dividend_df t / discount_df t),
   texps.map (fun t => -(ext.log (discount_df t)) / t),
   texps.map (fun t => -(ext.log (dividend_df t)) / t))

/-- A calibration oracle for the whole construction: `run i xinit method` is the
outcome of one optimizer call on expiry index `i`'s objective with initial
guess `xinit` (the remaining `args` of `_obj` are fixed by the surface). -/
abbrev CalibRun := ℕ → Vec → FinSolverTypes → Except PyErr OptResult

/-- The calibration loop of `_buildVolSurface` (lines 624-645): iterate over
expiry indices, calling `_solveToHorizon` with initial guess `xinits[i]`, and
appending each fitted result to both `parameters` and `xinits`.  Arguments:
current index, remaining iteration count, the `parameters` rows accumulated so
far (reversed), and the `xinits` list in order.  Returns the `parameters` rows
and the final `xinits` list; an exception escaping `_solveToHorizon` aborts the
construction. -/
def calibLoop (run : CalibRun) (finSolverType : FinSolverTypes) :
    ℕ → ℕ → List Vec → List Vec → Except PyErr (List Vec × List Vec)
  | _, 0, paramsRev, xinits => .ok (paramsRev.reverse, xinits)
  | i, rem + 1, paramsRev, xinits =>
    match (_solveToHorizon (run i (xinits.getD i [])) finSolverType).1 with
    | .error e => .error e
    | .ok res => calibLoop run finSolverType (i + 1) rem (res :: paramsRev) (xinits ++ [res])

/-- The whole calibration phase of `_buildVolSurface`: seed `xinits` with
`np.zeros(num_parameters)` and run the loop over all expiry indices in order. -/
def buildVolSurfaceCalib (run : CalibRun) (finSolverType : FinSolverTypes)
    (volatility_function_type : FinVolFunctionTypes) (numExpiryDates : ℕ) :
    Except PyErr (List Vec × List Vec) :=
  calibLoop run finSolverType 0 numExpiryDates []
    [zeroVec (numParameters volatility_function_type)]

/-!  ### Concrete instances used by witnesses and counterexamples  -/

/-- A constant smile formula. -/
def constVol (c : ℚ) : Vec → ℚ → ℚ → ℚ → ℚ := fun _ _ _ _ => c

/-- Smile implementations that are constant `1/5` everywhere. -/
def implsFifth : VolImpls :=
  { clark := constVol (1 / 5), sabr := constVol (1 / 5), sabrBetaOne := constVol (1 / 5),
    sabrBetaHalf := constVol (1 / 5), bloomberg := constVol (1 / 5),
    svi := constVol (1 / 5), ssvi := constVol (1 / 5) }

/-- Smile implementations whose Clark formula returns `1` at time `1` and `2`
elsewhere (the two tenors of `surfC4` below get different volatilities). -/
def implsByTime : VolImpls :=
  { clark := fun _ _ _ t => if t = 1 then 1 else 2, sabr := constVol 0,
    sabrBetaOne := constVol 0, sabrBetaHalf := constVol 0, bloomberg := constVol 0,
    svi := constVol 0, ssvi := constVol 0 }

/-- Externals whose Black-Scholes delta is `1/2` for calls and `0` for puts. -/
def extA : Externals :=
  { exp := id, log := id, sqrt := Rat.sqrt, norminvcdf := id,
    bs_delta := fun _ _ _ _ _ _ ot =>
      match ot with
      | FinOptionTypes.EUROPEAN_CALL => 1 / 2
      | FinOptionTypes.EUROPEAN_PUT => 0 }

/-- Externals identical to `extA` except on the put delta. -/
def extB : Externals :=
  { exp := id, log := id, sqrt := Rat.sqrt, norminvcdf := id,
    bs_delta := fun _ _ _ _ _ _ ot =>
      match ot with
      | FinOptionTypes.EUROPEAN_CALL => 1 / 2
      | FinOptionTypes.EUROPEAN_PUT => 1 / 3 }

/-- Externals whose Black-Scholes delta returns the zero rate argument, so the
strike solve converges at a tenor exactly when the target delta equals that
tenor's zero rate. -/
def extC3 : Externals :=
  { exp := id, log := id, sqrt := Rat.sqrt, norminvcdf := id,
    bs_delta := fun _ _ _ r _ _ _ => r }

/-- A three-tenor calibrated surface fixture. -/
def surfW : EquityVolSurface :=
  { valuation_date := 0, stock_price := 100, volatility_function_type := .CLARK,
    texp := [1 / 4, 1 / 2, 1], F0T := [100, 101, 102],
    r := [1 / 100, 1 / 100, 1 / 100], q := [0, 0, 0],
    parameters := [[0, 0, 0], [0, 0, 0], [0, 0, 0]] }

/-- A two-tenor surface whose zero rates differ across tenors (`0` and `1/2`),
so that under `extC3` the strike solve fails at tenor `0` and converges at
tenor `1`. -/
def surfC3 : EquityVolSurface :=
  { valuation_date := 0, stock_price := 100, volatility_function_type := .CLARK,
    texp := [1 / 4, 1], F0T := [100, 101], r := [0, 1 / 2], q := [0, 0],
    parameters := [[0, 0, 0], [0, 0, 0]] }

/-- A two-tenor surface whose tenors are only `1e-7` years apart, so the bracket
indices can differ while `|t1 - t0| ≤ 1e-6`. -/
def surfC4 : EquityVolSurface :=
  { valuation_date := 0, stock_price := 100, volatility_function_type := .CLARK,
    texp := [1, 1 + 1 / 10000000], F0T := [100, 100], r := [0, 0], q := [0, 0],
    parameters := [[0, 0, 0], [0, 0, 0]] }

/-- A single-tenor surface fixture. -/
def surfOne : EquityVolSurface :=
  { valuation_date := 0, stock_price := 100, volatility_function_type := .CLARK,
    texp := [1], F0T := [100], r := [1 / 100], q := [0], parameters := [[0, 0, 0]] }

/-- An optimizer run in which every method returns without raising but reports
non-convergence. -/
def runUnconverged : OptRun := fun _ => .ok ⟨[1, 2, 3], false⟩

/-- An optimizer run in which every method except conjugate-gradient raises and
conjugate-gradient returns an unconverged result. -/
def runRaisesThenOk : OptRun := fun m =>
  match m with
  | FinSolverTypes.CONJUGATE_GRADIENT => .ok ⟨[7], false⟩
  | _ => .error (PyErr.optimizerRaised 0)

/-- A calibration oracle whose fitted vector for expiry `i` is
`[i+1, i+1, i+1]`. -/
def runW : CalibRun := fun i _ _ => .ok ⟨List.replicate 3 ((i : ℚ) + 1), true⟩

/-!  ### Helper lemmas  -/

/-- In a strictly increasing list, earlier entries are smaller. -/
theorem chain_getD_lt {l : List ℚ} (hl : l.Chain' (· < ·)) {i j : ℕ}
    (hij : i < j) (hj : j < l.length) : l.getD i 0 < l.getD j 0 := by
  rw [List.getD_eq_getElem l 0 (lt_trans hij hj), List.getD_eq_getElem l 0 hj]
  have hp := (List.chain'_iff_pairwise.mp hl)
  exact List.pairwise_iff_get.mp hp ⟨i, lt_trans hij hj⟩ ⟨j, hj⟩ hij

/-- Adjacent gap extraction from a chain. -/
theorem chain_getD_adj {R : ℚ → ℚ → Prop} {l : List ℚ} (hl : l.Chain' R) {i : ℕ}
    (hi : i + 1 < l.length) : R (l.getD i 0) (l.getD (i + 1) 0) := by
  rw [List.getD_eq_getElem l 0 (Nat.lt_of_succ_lt hi), List.getD_eq_getElem l 0 hi]
  have := List.chain'_iff_get.mp hl i (by omega)
  simpa [List.get_eq_getElem] using this

/-- The bracket scan finds the window `(i, i+1)` whose upper end is the first
entry at or above `texp`, provided the list is strictly increasing. -/
theorem bracketScanAux_window (tau : ℚ) :
    ∀ (l : List ℚ) (i acc : ℕ), l.Chain' (· < ·) → i + 1 < l.length →
      l.getD i 0 < tau → tau ≤ l.getD (i + 1) 0 →
      bracketScanAux tau l acc = (acc + i, acc + i + 1)
  | [], i, acc => by intro _ hi; simp at hi
  | [a], i, acc => by intro _ hi; simp at hi
  | a :: b :: rest, i, acc => by
    intro hch hi h1 h2
    cases i with
    | zero =>
      have ha : a < tau := by simpa using h1
      have hb : tau ≤ b := by simpa using h2
      simp [bracketScanAux, ha, hb]
    | succ j =>
      have hblt : b ≤ (a :: b :: rest).getD (j + 1) 0 := by
        cases j with
        | zero => simp
        | succ j' =>
          have h := chain_getD_lt (l := a :: b :: rest) hch
            (i := 1) (j := j' + 2) (by omega) (Nat.lt_of_succ_lt hi)
          simpa using le_of_lt h
      have hnotb : ¬ (tau ≤ b ∧ tau > a) := by
        intro hc
        exact absurd (lt_of_le_of_lt hblt h1) (not_lt.mpr hc.1)
      have hrec := bracketScanAux_window tau (b :: rest) j (acc + 1)
        hch.tail (by simpa using Nat.succ_lt_succ_iff.mp hi)
        (by simpa using h1) (by simpa using h2)
      simp only [bracketScanAux, hnotb, if_false]
      rw [hrec]
      have e1 : acc + 1 + j = acc + (j + 1) := by omega
      rw [e1]

/-- A successful `secantLoop` result meets the tolerance. -/
theorem secantLoop_ok {f : ℚ → ℚ} {tol : ℚ} :
    ∀ {fuel : ℕ} {p0 p1 K : ℚ}, secantLoop f tol fuel p0 p1 = .ok K → |f K| ≤ tol := by
  intro fuel
  induction fuel with
  | zero => intro p0 p1 K h; exact absurd h (by simp [secantLoop])
  | succ n ih =>
    intro p0 p1 K h
    rw [secantLoop] at h
    by_cases hc : |f p1| ≤ tol
    · rw [if_pos hc] at h
      cases h
      exact hc
    · rw [if_neg hc] at h
      by_cases hd : f p1 - f p0 = 0
      · rw [if_pos hd] at h; exact absurd h (by simp)
      · rw [if_neg hd] at h
        exact ih h

/-- With fuel left, `secantLoop` accepts an iterate meeting the tolerance. -/
theorem secantLoop_converged {f : ℚ → ℚ} {tol : ℚ} {fuel : ℕ} {p0 p1 : ℚ}
    (hfuel : fuel ≠ 0) (h : |f p1| ≤ tol) : secantLoop f tol fuel p0 p1 = .ok p1 := by
  cases fuel with
  | zero => exact absurd rfl hfuel
  | succ n => rw [secantLoop, if_pos h]

/-- With fuel left, a constant objective away from the tolerance stalls the
secant step (zero denominator) and surfaces the non-convergence error. -/
theorem secantLoop_stall {f : ℚ → ℚ} {tol : ℚ} {fuel : ℕ} {p0 p1 : ℚ}
    (hfuel : fuel ≠ 0) (h : ¬ |f p1| ≤ tol) (hd : f p1 - f p0 = 0) :
    secantLoop f tol fuel p0 p1 = .error PyErr.strikeSolveFailed := by
  cases fuel with
  | zero => exact absurd rfl hfuel
  | succ n =>
    rw [secantLoop, if_neg h]
    simp only [hd, if_pos]

/-- A failing `secantLoop` surfaces exactly the non-convergence error. -/
theorem secantLoop_error {f : ℚ → ℚ} {tol : ℚ} :
    ∀ {fuel : ℕ} {p0 p1 : ℚ} {e : PyErr},
      secantLoop f tol fuel p0 p1 = .error e → e = PyErr.strikeSolveFailed := by
  intro fuel
  induction fuel with
  | zero =>
    intro p0 p1 e h
    rw [secantLoop] at h
    cases h
    rfl
  | succ n ih =>
    intro p0 p1 e h
    rw [secantLoop] at h
    by_cases hc : |f p1| ≤ tol
    · rw [if_pos hc] at h; exact absurd h (by simp)
    · rw [if_neg hc] at h
      by_cases hd : f p1 - f p0 = 0
      · rw [if_pos hd] at h
        cases h
        rfl
      · rw [if_neg hd] at h
        exact ih h

/-!  ### Claim C1  -/

/-- Claim C1 counterexample: an optimizer run in which the primary method
(Nelder-Mead, not conjugate-gradient) returns without raising but reports
non-convergence.  Contrary to the claim, `_solveToHorizon` performs no
conjugate-gradient retry (the attempt trace is just `[NELDER_MEAD]`) and
returns the unconverged parameter vector `[1, 2, 3]` instead of failing with a
calibration-not-converged error. -/
theorem C1_counterexample :
    runUnconverged FinSolverTypes.NELDER_MEAD = .ok ⟨[1, 2, 3], false⟩ ∧
    FinSolverTypes.NELDER_MEAD ≠ FinSolverTypes.CONJUGATE_GRADIENT ∧
    _solveToHorizon runUnconverged FinSolverTypes.NELDER_MEAD
      = (.ok [1, 2, 3], [FinSolverTypes.NELDER_MEAD]) := by
  refine ⟨rfl, by decide, rfl⟩

/-- Claim C1 (amended): the conjugate-gradient retry of `_solveToHorizon`
happens exactly when the primary optimizer raises an exception and the primary
was not conjugate-gradient; reported non-convergence without an exception is
not detected, and whatever vector the last optimizer call returned is accepted
without any convergence check; if the retry raises, that exception propagates
(there is no calibration-not-converged error); if the primary was
conjugate-gradient and raised, the function fails with an unbound-local error
on `xopt`. -/
theorem C1_solveToHorizon_amended (run : OptRun) (finSolverType : FinSolverTypes) :
    (∀ res, run finSolverType = .ok res →
      _solveToHorizon run finSolverType = (.ok res.x, [finSolverType])) ∧
    (∀ e res, run finSolverType = .error e →
      finSolverType ≠ FinSolverTypes.CONJUGATE_GRADIENT →
      run FinSolverTypes.CONJUGATE_GRADIENT = .ok res →
      _solveToHorizon run finSolverType
        = (.ok res.x, [finSolverType, FinSolverTypes.CONJUGATE_GRADIENT])) ∧
    (∀ e e2, run finSolverType = .error e →
      finSolverType ≠ FinSolverTypes.CONJUGATE_GRADIENT →
      run FinSolverTypes.CONJUGATE_GRADIENT = .error e2 →
      _solveToHorizon run finSolverType
        = (.error e2, [finSolverType, FinSolverTypes.CONJUGATE_GRADIENT])) ∧
    (∀ e, run FinSolverTypes.CONJUGATE_GRADIENT = .error e →
      _solveToHorizon run FinSolverTypes.CONJUGATE_GRADIENT
        = (.error PyErr.unboundLocalXopt, [FinSolverTypes.CONJUGATE_GRADIENT])) := by
  refine ⟨?_, ?_, ?_, ?_⟩
  · intro res h
    simp [_solveToHorizon, h]
  · intro e res h hne hcg
    simp [_solveToHorizon, h, hne, hcg]
  · intro e e2 h hne hcg
    simp [_solveToHorizon, h, hne, hcg]
  · intro e h
    simp [_solveToHorizon, h]

/-- Claim C1 witness: a primary Nelder-Mead run that raises, followed by a
conjugate-gradient retry returning the (unconverged) vector `[7]`; the amended
theorem yields the retried result and the two-attempt trace. -/
theorem C1_witness :
    _solveToHorizon runRaisesThenOk FinSolverTypes.NELDER_MEAD
      = (.ok [7], [FinSolverTypes.NELDER_MEAD, FinSolverTypes.CONJUGATE_GRADIENT]) :=
  (C1_solveToHorizon_amended runRaisesThenOk FinSolverTypes.NELDER_MEAD).2.1
    (PyErr.optimizerRaised 0) ⟨[7], false⟩ rfl (by decide) rfl

/-!  ### Claim C2  -/

/-- Claim C2: `_solveForSmileStrike` hands its objective to the 1-D solver with
tolerance `1e-8` and an iteration budget of `50`; every successfully returned
strike satisfies the tolerance on the inverse-normal-delta objective, and every
failure surfaces the strike-solve non-convergence error — a stale or
unconverged guess is never returned. -/
theorem C2_solveForSmileStrike (ext : Externals) (impls : VolImpls)
    (s t r q : ℚ) (option_type_value : FinOptionTypes)
    (volatilityTypeValue : FinVolFunctionTypes) (deltaTarget initialGuess : ℚ)
    (parameters : Vec) :
    _solveForSmileStrike ext impls s t r q option_type_value volatilityTypeValue
        deltaTarget initialGuess parameters
      = newton_secant
          (_deltaFit ext impls volatilityTypeValue s t r q option_type_value
            (ext.norminvcdf |deltaTarget|) parameters)
          initialGuess tol8 50 ∧
    (∀ K, _solveForSmileStrike ext impls s t r q option_type_value volatilityTypeValue
        deltaTarget initialGuess parameters = .ok K →
      |_deltaFit ext impls volatilityTypeValue s t r q option_type_value
        (ext.norminvcdf |deltaTarget|) parameters K| ≤ tol8) ∧
    (∀ e, _solveForSmileStrike ext impls s t r q option_type_value volatilityTypeValue
        deltaTarget initialGuess parameters = .error e →
      e = PyErr.strikeSolveFailed) := by
  refine ⟨rfl, ?_, ?_⟩
  · intro K h
    exact secantLoop_ok h
  · intro e h
    exact secantLoop_error h

/-- Under `extA` the strike-solve objective vanishes identically at target
delta `1/2` (the computed call delta is always `1/2`). -/
theorem deltaFit_extA_zero (k : ℚ) :
    _deltaFit extA implsFifth FinVolFunctionTypes.CLARK 100 1 0 0
      FinOptionTypes.EUROPEAN_CALL (extA.norminvcdf |(1 : ℚ) / 2|) [0, 0, 0] k = 0 := by
  simp [_deltaFit, extA, volFunction, implsFifth, constVol]

/-- Under `extA` the strike solve converges at its first iterate
`100 * (1 + 1/10000)`. -/
theorem solveForSmileStrike_extA :
    _solveForSmileStrike extA implsFifth 100 1 0 0 FinOptionTypes.EUROPEAN_CALL
        FinVolFunctionTypes.CLARK (1 / 2) 100 [0, 0, 0]
      = .ok (100 * (1 + 1 / 10000)) := by
  rw [_solveForSmileStrike, newton_secant]
  exact secantLoop_converged (by norm_num)
    (by rw [deltaFit_extA_zero]; norm_num [tol8])

/-- Claim C2 witness: with `extA` the objective vanishes identically at target
delta `1/2`, so the solver converges at its first iterate
`100 * (1 + 1/10000)`, and the returned strike meets the `1e-8` tolerance. -/
theorem C2_witness :
    _solveForSmileStrike extA implsFifth 100 1 0 0 FinOptionTypes.EUROPEAN_CALL
        FinVolFunctionTypes.CLARK (1 / 2) 100 [0, 0, 0] = .ok (100 * (1 + 1 / 10000)) ∧
    |_deltaFit extA implsFifth FinVolFunctionTypes.CLARK 100 1 0 0
        FinOptionTypes.EUROPEAN_CALL (extA.norminvcdf |(1 : ℚ) / 2|) [0, 0, 0]
        (100 * (1 + 1 / 10000))| ≤ tol8 :=
  ⟨solveForSmileStrike_extA,
   (C2_solveForSmileStrike extA implsFifth 100 1 0 0 FinOptionTypes.EUROPEAN_CALL
      FinVolFunctionTypes.CLARK (1 / 2) 100 [0, 0, 0]).2.1 (100 * (1 + 1 / 10000))
      solveForSmileStrike_extA⟩

/-!  ### Claim C3  -/

/-- Under `extC3`, a strike solve whose zero-rate argument is `0` has the
constant objective `|1/2| - |0|`, so the secant denominator vanishes and the
solve fails. -/
theorem solveForSmileStrike_extC3_stall (s t q ig : ℚ) (ps : Vec)
    (vt : FinVolFunctionTypes) :
    _solveForSmileStrike extC3 implsFifth s t 0 q FinOptionTypes.EUROPEAN_CALL vt
        (1 / 2) ig ps = .error PyErr.strikeSolveFailed := by
  rw [_solveForSmileStrike, newton_secant]
  refine secantLoop_stall (by norm_num) ?_ ?_
  · simp only [_deltaFit, extC3, id_eq, abs_zero, sub_zero, abs_abs, tol8]
    rw [abs_of_nonneg (by norm_num : (0 : ℚ) ≤ 1 / 2)]
    norm_num
  · simp [_deltaFit, extC3]

set_option maxHeartbeats 2000000 in
/-- If the strike solve for the lower bracket leg fails, the delta query
propagates that failure. -/
theorem volatilityFromDeltaDate_err0 {α : Type} (ext : Externals) (impls : VolImpls)
    (surf : EquityVolSurface) (callDelta expiry_date : ℚ) (dm : Option α) (e : PyErr)
    (h : _solveForSmileStrike ext impls surf.stock_price (queryTexp surf expiry_date)
      (surf.r.getD (deltaBracket surf.texp (queryTexp surf expiry_date)).1 0)
      (surf.q.getD (deltaBracket surf.texp (queryTexp surf expiry_date)).1 0)
      FinOptionTypes.EUROPEAN_CALL surf.volatility_function_type callDelta
      surf.stock_price
      (surf.parameters.getD (deltaBracket surf.texp (queryTexp surf expiry_date)).1 [])
      = .error e) :
    volatilityFromDeltaDate ext impls surf callDelta expiry_date dm = .error e := by
  simp only [volatilityFromDeltaDate, h]

/-- Claim C3 counterexample: on the two-tenor surface `surfC3`, the query time
of date `365` equals the latest fitted expiry (`τ = 1`), yet
`volatilityFromDeltaDate` selects the bracket `(0, 1)`, not
`(latest, latest) = (1, 1)`; observably, the query fails with the tenor-0
strike-solve error even though a flat extrapolation bracket would never touch
tenor 0. -/
theorem C3_counterexample :
    queryTexp surfC3 365 = surfC3.texp.getD (surfC3.texp.length - 1) 0 ∧
    deltaBracket surfC3.texp (queryTexp surfC3 365) = (0, 1) ∧
    (0, 1) ≠ (surfC3.texp.length - 1, surfC3.texp.length - 1) ∧
    volatilityFromDeltaDate extC3 implsFifth surfC3 (1 / 2) 365 (none : Option Unit)
      = .error PyErr.strikeSolveFailed := by
  have htau : queryTexp surfC3 365 = 1 := by
    norm_num [queryTexp, surfC3, gDaysInYear]
  have hbr : deltaBracket surfC3.texp (queryTexp surfC3 365) = (0, 1) := by
    rw [htau]
    norm_num [deltaBracket, surfC3, bracketScanAux]
  refine ⟨by rw [htau]; norm_num [surfC3], hbr, by norm_num [surfC3], ?_⟩
  apply volatilityFromDeltaDate_err0
  rw [hbr, htau]
  simp only [surfC3, List.getD_cons_zero]
  exact solveForSmileStrike_extC3_stall 100 1 0 100 [0, 0, 0] FinVolFunctionTypes.CLARK

/-- Claim C3 (amended): for a strictly ascending surface with at least two
tenors, the strike query brackets `(latest, latest)` whenever
`τ ≥ latest`; the delta query brackets `(latest, latest)` only when
`τ > latest` strictly, and at `τ = latest` exactly it brackets
`(latest - 1, latest)`. -/
theorem C3_bracket_amended (texps : List ℚ) (tau : ℚ)
    (hchain : texps.Chain' (· < ·)) (hn : 2 ≤ texps.length) :
    (texps.getD (texps.length - 1) 0 ≤ tau →
      strikeBracket texps tau = (texps.length - 1, texps.length - 1)) ∧
    (texps.getD (texps.length - 1) 0 < tau →
      deltaBracket texps tau = (texps.length - 1, texps.length - 1)) ∧
    (tau = texps.getD (texps.length - 1) 0 →
      deltaBracket texps tau = (texps.length - 2, texps.length - 1)) := by
  have h0n : texps.getD 0 0 < texps.getD (texps.length - 1) 0 :=
    chain_getD_lt hchain (by omega) (by omega)
  refine ⟨?_, ?_, ?_⟩
  · intro h
    rw [strikeBracket]
    rw [if_neg (by omega : ¬ texps.length = 1)]
    rw [if_neg (not_le.mpr (lt_of_lt_of_le h0n h))]
    rw [if_pos (ge_iff_le.mpr h)]
  · intro h
    rw [deltaBracket]
    rw [if_neg (by omega : ¬ texps.length = 1)]
    rw [if_neg (not_le.mpr (lt_trans h0n h))]
    rw [if_pos h]
  · intro h
    subst h
    rw [deltaBracket]
    rw [if_neg (by omega : ¬ texps.length = 1)]
    rw [if_neg (not_le.mpr h0n)]
    rw [if_neg (lt_irrefl _)]
    have hw := bracketScanAux_window (texps.getD (texps.length - 1) 0) texps
      (texps.length - 2) 0 hchain (by omega)
      (chain_getD_lt hchain (by omega) (by omega))
      (by rw [(by omega : texps.length - 2 + 1 = texps.length - 1)])
    rw [hw]
    simp only [Prod.mk.injEq]
    omega

/-- Claim C3 witness: on the tenor list `[1/4, 1]` at `τ = 1` (the latest
tenor), the amended theorem gives the strike-query bracket `(1, 1)` and the
delta-query bracket `(0, 1)`. -/
theorem C3_witness :
    strikeBracket [(1 : ℚ) / 4, 1] 1 = (1, 1) ∧
    deltaBracket [(1 : ℚ) / 4, 1] 1 = (0, 1) := by
  have h := C3_bracket_amended [(1 : ℚ) / 4, 1] 1
    (List.Chain'.cons (by norm_num) (List.chain'_singleton 1)) (by norm_num)
  constructor
  · have h1 := h.1 (by simp)
    simpa using h1
  · have h2 := h.2.2 (by simp)
    simpa using h2

/-!  ### Claim C4  -/

set_option maxHeartbeats 2000000 in
/-- Characterization of the strike query in terms of its selected bracket. -/
theorem volatilityFromStrikeDate_eq (ext : Externals) (impls : VolImpls)
    (surf : EquityVolSurface) (K d : ℚ) (i0 i1 : ℕ)
    (hb : strikeBracket surf.texp (queryTexp surf d) = (i0, i1)) :
    volatilityFromStrikeDate ext impls surf K d =
      (let texp := queryTexp surf d
       let t0 := surf.texp.getD i0 0
       let t1 := surf.texp.getD i1 0
       let vol0 := volFunction impls surf.volatility_function_type
         (surf.parameters.getD i0 []) (surf.F0T.getD i0 0) K t0
       let vol1 := if i1 ≠ i0 then
           volFunction impls surf.volatility_function_type
             (surf.parameters.getD i1 []) (surf.F0T.getD i1 0) K t1
         else vol0
       if |t1 - t0| > tol6 then
         let vart := ((texp - t0) * (vol1 * vol1 * t1) + (t1 - texp) * (vol0 * vol0 * t0))
           / (t1 - t0)
         if vart < 0 then .error PyErr.negativeVariance
         else .ok (ext.sqrt (vart / texp))
       else .ok vol1) := by
  simp only [volatilityFromStrikeDate, hb]

/-- Claim C4 (amended): the strike query interpolates exactly when the two
bracket times are more than `1e-6` apart — not exactly when the bracket
indices differ.  In the interpolation branch the result is
`sqrt(vart/τ)` with `vart` the linear interpolation of total variance, and
the query fails with the negative-variance error exactly when `vart < 0`;
when the bracket times are within `1e-6` (whether or not the indices differ)
the upper-endpoint volatility `vol1` is returned directly with no
interpolation and no negative-variance check. -/
theorem C4_strikeQuery_amended (ext : Externals) (impls : VolImpls)
    (surf : EquityVolSurface) (K d texp t0 t1 vol0 vol1 vart : ℚ) (i0 i1 : ℕ)
    (htexp : texp = queryTexp surf d)
    (hb : strikeBracket surf.texp texp = (i0, i1))
    (ht0 : t0 = surf.texp.getD i0 0)
    (ht1 : t1 = surf.texp.getD i1 0)
    (hv0 : vol0 = volFunction impls surf.volatility_function_type
      (surf.parameters.getD i0 []) (surf.F0T.getD i0 0) K t0)
    (hv1 : vol1 = (if i1 ≠ i0 then
        volFunction impls surf.volatility_function_type
          (surf.parameters.getD i1 []) (surf.F0T.getD i1 0) K t1
      else vol0))
    (hvart : vart = ((texp - t0) * (vol1 * vol1 * t1) + (t1 - texp) * (vol0 * vol0 * t0))
      / (t1 - t0)) :
    (|t1 - t0| > tol6 → vart < 0 →
      volatilityFromStrikeDate ext impls surf K d = .error PyErr.negativeVariance) ∧
    (|t1 - t0| > tol6 → 0 ≤ vart →
      volatilityFromStrikeDate ext impls surf K d = .ok (ext.sqrt (vart / texp))) ∧
    (¬ |t1 - t0| > tol6 →
      volatilityFromStrikeDate ext impls surf K d = .ok vol1) := by
  subst htexp ht0 ht1 hv0 hv1 hvart
  rw [volatilityFromStrikeDate_eq ext impls surf K d i0 i1 hb]
  refine ⟨?_, ?_, ?_⟩
  · intro hgt hlt
    simp only [if_pos hgt, if_pos hlt]
  · intro hgt hge
    simp only [if_pos hgt, if_neg (not_lt.mpr hge)]
  · intro hngt
    simp only [if_neg hngt]

/-- Claim C4 counterexample: on `surfC4` the two tenors are `1e-7` apart and a
query at `τ = 1 + 5e-8` selects the bracket `(0, 1)` — the endpoints differ —
yet the query returns the upper-endpoint volatility `2` directly: the square
of the returned value times `τ` differs from the interpolated total variance,
so the returned value is not `sqrt(vart/τ)` and no interpolation happened. -/
theorem C4_counterexample :
    strikeBracket surfC4.texp (queryTexp surfC4 (365 * (1 + 1 / 20000000))) = (0, 1) ∧
    volFunction implsByTime surfC4.volatility_function_type (surfC4.parameters.getD 1 [])
      (surfC4.F0T.getD 1 0) 100 (surfC4.texp.getD 1 0) = 2 ∧
    volatilityFromStrikeDate extA implsByTime surfC4 100 (365 * (1 + 1 / 20000000))
      = .ok 2 ∧
    (2 : ℚ) * 2 * queryTexp surfC4 (365 * (1 + 1 / 20000000)) ≠
      ((queryTexp surfC4 (365 * (1 + 1 / 20000000)) - surfC4.texp.getD 0 0) *
          (2 * 2 * surfC4.texp.getD 1 0) +
        (surfC4.texp.getD 1 0 - queryTexp surfC4 (365 * (1 + 1 / 20000000))) *
          (1 * 1 * surfC4.texp.getD 0 0)) /
        (surfC4.texp.getD 1 0 - surfC4.texp.getD 0 0) := by
  have htau : queryTexp surfC4 (365 * (1 + 1 / 20000000)) = 1 + 1 / 20000000 := by
    norm_num [queryTexp, surfC4, gDaysInYear]
  have hbr : strikeBracket surfC4.texp (queryTexp surfC4 (365 * (1 + 1 / 20000000)))
      = (0, 1) := by
    rw [htau]
    norm_num [strikeBracket, surfC4, bracketScanAux]
  refine ⟨hbr, ?_, ?_, ?_⟩
  · norm_num [volFunction, implsByTime, surfC4]
  · rw [volatilityFromStrikeDate_eq extA implsByTime surfC4 100 _ 0 1 hbr, htau]
    norm_num [surfC4, tol6, volFunction, implsByTime, lt_abs]
  · rw [htau]
    norm_num [surfC4]

/-- Claim C4 witness: an interior interpolating query on `surfW` at
`τ = 3/8` with bracket `(0, 1)`; the amended theorem's interpolation branch
applies and yields `sqrt(vart/τ)` with `vart = 3/200`. -/
theorem C4_witness :
    volatilityFromStrikeDate extA implsFifth surfW 100 (365 * 3 / 8)
      = .ok (extA.sqrt ((3 / 200) / (3 / 8))) :=
  (C4_strikeQuery_amended extA implsFifth surfW 100 (365 * 3 / 8) (3 / 8) (1 / 4) (1 / 2)
    (1 / 5) (1 / 5) (3 / 200) 0 1
    (by norm_num [queryTexp, surfW, gDaysInYear])
    (by norm_num [strikeBracket, surfW, bracketScanAux])
    (by norm_num [surfW])
    (by norm_num [surfW])
    (by norm_num [volFunction, implsFifth, constVol, surfW])
    (by norm_num [volFunction, implsFifth, constVol, surfW])
    (by norm_num [surfW])).2.1 (by norm_num [tol6, lt_abs]) (by norm_num)

/-!  ### Claims C5 and C6  -/

/-- When the two bracket indices coincide, the strike query returns that
endpoint's own smile volatility directly. -/
theorem volatilityFromStrikeDate_coincident (ext : Externals) (impls : VolImpls)
    (surf : EquityVolSurface) (K d : ℚ) (j : ℕ)
    (hb : strikeBracket surf.texp (queryTexp surf d) = (j, j)) :
    volatilityFromStrikeDate ext impls surf K d =
      .ok (volFunction impls surf.volatility_function_type (surf.parameters.getD j [])
        (surf.F0T.getD j 0) K (surf.texp.getD j 0)) := by
  rw [volatilityFromStrikeDate_eq ext impls surf K d j j hb]
  simp [tol6]

/-- Claim C5: querying the strike query exactly at calibrated tenor `i` of a
well-formed surface (tenors strictly ascending with gaps above `1e-6`, all
positive; square root inverting squares on nonnegatives; the tenor's smile
value nonnegative) returns exactly that tenor's own direct smile evaluation. -/
theorem C5_queryAtCalibratedTenor (ext : Externals) (impls : VolImpls)
    (surf : EquityVolSurface) (K d : ℚ) (i : ℕ)
    (hchain : surf.texp.Chain' (fun a b => a + tol6 < b))
    (hpos : ∀ t ∈ surf.texp, 0 < t)
    (hi : i < surf.texp.length)
    (hd : queryTexp surf d = surf.texp.getD i 0)
    (hsqrt : ∀ x : ℚ, 0 ≤ x → ext.sqrt (x * x) = x)
    (hnn : 0 ≤ volFunction impls surf.volatility_function_type (surf.parameters.getD i [])
      (surf.F0T.getD i 0) K (surf.texp.getD i 0)) :
    volatilityFromStrikeDate ext impls surf K d =
      .ok (volFunction impls surf.volatility_function_type (surf.parameters.getD i [])
        (surf.F0T.getD i 0) K (surf.texp.getD i 0)) := by
  have hlt : surf.texp.Chain' (· < ·) :=
    hchain.imp (fun a b h => lt_of_le_of_lt
      (le_add_of_nonneg_right (show (0 : ℚ) ≤ tol6 by norm_num [tol6])) h)
  by_cases hn1 : surf.texp.length = 1
  · have hi0 : i = 0 := by omega
    subst hi0
    exact volatilityFromStrikeDate_coincident ext impls surf K d 0
      (by rw [strikeBracket, if_pos hn1])
  · by_cases hi0 : i = 0
    · subst hi0
      exact volatilityFromStrikeDate_coincident ext impls surf K d 0
        (by rw [strikeBracket, if_neg hn1, if_pos (le_of_eq hd)])
    · by_cases hilast : i = surf.texp.length - 1
      · subst hilast
        refine volatilityFromStrikeDate_coincident ext impls surf K d _ ?_
        rw [strikeBracket, if_neg hn1]
        rw [if_neg (by
          rw [hd]
          exact not_le.mpr (chain_getD_lt hlt (by omega) (by omega)))]
        rw [if_pos (ge_of_eq hd)]
      · have hiub : i < surf.texp.length - 1 := by omega
        have hwin := bracketScanAux_window (queryTexp surf d) surf.texp (i - 1) 0 hlt
          (by omega)
          (by rw [hd]; exact chain_getD_lt hlt (by omega) hi)
          (by rw [hd, (by omega : i - 1 + 1 = i)])
        have hb : strikeBracket surf.texp (queryTexp surf d) = (i - 1, i) := by
          rw [strikeBracket, if_neg hn1]
          rw [if_neg (by
            rw [hd]
            exact not_le.mpr (chain_getD_lt hlt (by omega) hi))]
          rw [if_neg (by
            rw [ge_iff_le, hd]
            exact not_le.mpr (chain_getD_lt hlt (by omega) (by omega)))]
          rw [hwin]
          simp only [Prod.mk.injEq]
          omega
        rw [volatilityFromStrikeDate_eq ext impls surf K d (i - 1) i hb]
        have hgap : surf.texp.getD (i - 1) 0 + tol6 < surf.texp.getD i 0 := by
          have h := chain_getD_adj hchain (i := i - 1) (by omega)
          rwa [(by omega : i - 1 + 1 = i)] at h
        have ht1pos : 0 < surf.texp.getD i 0 := by
          refine hpos _ ?_
          rw [List.getD_eq_getElem surf.texp 0 hi]
          exact List.getElem_mem hi
        have htolpos : (0 : ℚ) < tol6 := by norm_num [tol6]
        have habs : |surf.texp.getD i 0 - surf.texp.getD (i - 1) 0| > tol6 := by
          rw [abs_of_pos (by linarith)]
          linarith
        have hne : i ≠ i - 1 := by omega
        have h10 : surf.texp.getD i 0 - surf.texp.getD (i - 1) 0 ≠ 0 := by
          intro hc
          linarith
        simp only [hd, if_pos habs, ne_eq, hne, not_false_iff, if_true, sub_self,
          zero_mul, add_zero, mul_zero]
        rw [mul_div_cancel_left₀ _ h10]
        rw [if_neg (not_lt.mpr (mul_nonneg (mul_self_nonneg _) (le_of_lt ht1pos)))]
        rw [mul_div_cancel_right₀ _ (ne_of_gt ht1pos)]
        rw [hsqrt _ hnn]

/-- Claim C5 witness: querying `surfW` exactly at its middle tenor
(`τ = 1/2`, an interior tenor that genuinely interpolates between brackets
`(0, 1)`) returns tenor 1's own direct smile evaluation. -/
theorem C5_witness :
    volatilityFromStrikeDate extA implsFifth surfW 100 (365 / 2) =
      .ok (volFunction implsFifth surfW.volatility_function_type (surfW.parameters.getD 1 [])
        (surfW.F0T.getD 1 0) 100 (surfW.texp.getD 1 0)) :=
  C5_queryAtCalibratedTenor extA implsFifth surfW 100 (365 / 2) 1
    (by
      show List.Chain' _ [(1 : ℚ) / 4, 1 / 2, 1]
      refine List.Chain'.cons ?_ (List.Chain'.cons ?_ (List.chain'_singleton _)) <;>
        norm_num [tol6])
    (by
      intro t ht
      simp only [surfW, List.mem_cons, List.not_mem_nil, or_false] at ht
      rcases ht with rfl | rfl | rfl <;> norm_num)
    (by norm_num [surfW])
    (by norm_num [queryTexp, surfW, gDaysInYear])
    (fun x hx => by
      show Rat.sqrt (x * x) = x
      rw [Rat.sqrt_eq]
      exact abs_of_nonneg hx)
    (by norm_num [volFunction, implsFifth, constVol, surfW])

/-- Claim C6: for a query time strictly below the first calibrated tenor or
strictly above the last one, the strike query returns the boundary tenor's own
smile value at that strike (evaluated at the boundary tenor's own time and
forward); the returned value does not mention the query time. -/
theorem C6_flatExtrapolation (ext : Externals) (impls : VolImpls)
    (surf : EquityVolSurface) (K d : ℚ)
    (hne : surf.texp ≠ []) (hchain : surf.texp.Chain' (· < ·)) :
    (queryTexp surf d < surf.texp.getD 0 0 →
      volatilityFromStrikeDate ext impls surf K d =
        .ok (volFunction impls surf.volatility_function_type (surf.parameters.getD 0 [])
          (surf.F0T.getD 0 0) K (surf.texp.getD 0 0))) ∧
    (surf.texp.getD (surf.texp.length - 1) 0 < queryTexp surf d →
      volatilityFromStrikeDate ext impls surf K d =
        .ok (volFunction impls surf.volatility_function_type
          (surf.parameters.getD (surf.texp.length - 1) [])
          (surf.F0T.getD (surf.texp.length - 1) 0) K
          (surf.texp.getD (surf.texp.length - 1) 0))) := by
  have hlen : 0 < surf.texp.length := List.length_pos.mpr hne
  constructor
  · intro h
    refine volatilityFromStrikeDate_coincident ext impls surf K d 0 ?_
    by_cases hn1 : surf.texp.length = 1
    · rw [strikeBracket, if_pos hn1]
    · rw [strikeBracket, if_neg hn1, if_pos (le_of_lt h)]
  · intro h
    by_cases hn1 : surf.texp.length = 1
    · have h0 : surf.texp.length - 1 = 0 := by omega
      rw [h0]
      exact volatilityFromStrikeDate_coincident ext impls surf K d 0
        (by rw [strikeBracket, if_pos hn1])
    · refine volatilityFromStrikeDate_coincident ext impls surf K d _ ?_
      rw [strikeBracket, if_neg hn1]
      rw [if_neg (not_le.mpr
        (lt_trans (chain_getD_lt hchain (by omega) (by omega)) h))]
      rw [if_pos (le_of_lt h)]

/-- Claim C6 witness: on `surfW` (tenors `1/4`, `1/2`, `1`) a query at
`τ = -1` (below the first tenor) returns tenor 0's smile value, and a query at
`τ = 2` (above the last tenor) returns tenor 2's smile value. -/
theorem C6_witness :
    volatilityFromStrikeDate extA implsFifth surfW 100 (-365) =
      .ok (volFunction implsFifth surfW.volatility_function_type (surfW.parameters.getD 0 [])
        (surfW.F0T.getD 0 0) 100 (surfW.texp.getD 0 0)) ∧
    volatilityFromStrikeDate extA implsFifth surfW 100 730 =
      .ok (volFunction implsFifth surfW.volatility_function_type (surfW.parameters.getD 2 [])
        (surfW.F0T.getD 2 0) 100 (surfW.texp.getD 2 0)) := by
  have hchainW : surfW.texp.Chain' (· < ·) := by
    show List.Chain' _ [(1 : ℚ) / 4, 1 / 2, 1]
    refine List.Chain'.cons ?_ (List.Chain'.cons ?_ (List.chain'_singleton _)) <;> norm_num
  constructor
  · exact (C6_flatExtrapolation extA implsFifth surfW 100 (-365)
      (by simp [surfW]) hchainW).1
      (by norm_num [queryTexp, surfW, gDaysInYear])
  · have e : surfW.texp.length - 1 = 2 := by norm_num [surfW]
    have h := (C6_flatExtrapolation extA implsFifth surfW 100 730
      (by simp [surfW]) hchainW).2
    rw [e] at h
    exact h (by norm_num [queryTexp, surfW, gDaysInYear])

/-!  ### Claim C7  -/

/-- Claim C7: the optional `deltaMethod` override argument of
`volatilityFromDeltaDate` is accepted but never read — any two values of the
argument (of any type, including `none`) produce identical results. -/
theorem C7_deltaMethodUnused {α β : Type} (ext : Externals) (impls : VolImpls)
    (surf : EquityVolSurface) (callDelta expiry_date : ℚ)
    (dm1 : Option α) (dm2 : Option β) :
    volatilityFromDeltaDate ext impls surf callDelta expiry_date dm1
      = volatilityFromDeltaDate ext impls surf callDelta expiry_date dm2 := rfl

/-!  ### Claim C8  -/

/-- `getD` through `map` at an in-range index. -/
theorem getD_map_lt (f : ℚ → ℚ) (l : List ℚ) (j : ℕ) (hj : j < l.length) :
    (l.map f).getD j 0 = f (l.getD j 0) := by
  rw [List.getD_eq_getElem _ _ (by simpa using hj), List.getD_eq_getElem _ _ hj,
    List.getElem_map]

/-- Claim C8: for every in-range expiry index, construction populates
`texp[i] = (expiry_dates[i] - valuation_date)/gDaysInYear`,
`F0T[i] = spot * dividendDF(t_i) / discountDF(t_i)` and
`r[i] = -log(discountDF(t_i))/t_i`.  The embedding is purely functional: the
query operations take the surface as a read-only value, so these arrays cannot
change after construction. -/
theorem C8_termStructure (ext : Externals) (valuation_date stock_price : ℚ)
    (discount_df dividend_df : ℚ → ℚ) (expiry_dates : List ℚ) (i : ℕ)
    (hi : i < expiry_dates.length) :
    ((buildTermStructure ext valuation_date stock_price discount_df dividend_df
        expiry_dates).1.getD i 0
      = (expiry_dates.getD i 0 - valuation_date) / gDaysInYear) ∧
    ((buildTermStructure ext valuation_date stock_price discount_df dividend_df
        expiry_dates).2.1.getD i 0
      = stock_price
          * dividend_df ((expiry_dates.getD i 0 - valuation_date) / gDaysInYear)
          / discount_df ((expiry_dates.getD i 0 - valuation_date) / gDaysInYear)) ∧
    ((buildTermStructure ext valuation_date stock_price discount_df dividend_df
        expiry_dates).2.2.1.getD i 0
      = -(ext.log (discount_df ((expiry_dates.getD i 0 - valuation_date) / gDaysInYear)))
          / ((expiry_dates.getD i 0 - valuation_date) / gDaysInYear)) := by
  refine ⟨?_, ?_, ?_⟩ <;> simp only [buildTermStructure]
  · rw [getD_map_lt _ _ _ hi]
  · rw [getD_map_lt _ _ _ (by simpa using hi), getD_map_lt _ _ _ hi]
  · rw [getD_map_lt _ _ _ (by simpa using hi), getD_map_lt _ _ _ hi]

/-- Claim C8 witness: the construction arrays on a one-expiry instance with
concrete curves. -/
theorem C8_witness :
    ((buildTermStructure extA 0 100 (fun t => t + 1) (fun _ => 1) [365]).1.getD 0 0
      = (([365] : List ℚ).getD 0 0 - 0) / gDaysInYear) ∧
    ((buildTermStructure extA 0 100 (fun t => t + 1) (fun _ => 1) [365]).2.1.getD 0 0
      = 100 * (fun (_ : ℚ) => (1 : ℚ)) ((([365] : List ℚ).getD 0 0 - 0) / gDaysInYear)
          / (fun t => t + 1) ((([365] : List ℚ).getD 0 0 - 0) / gDaysInYear)) ∧
    ((buildTermStructure extA 0 100 (fun t => t + 1) (fun _ => 1) [365]).2.2.1.getD 0 0
      = -(extA.log ((fun t => t + 1) ((([365] : List ℚ).getD 0 0 - 0) / gDaysInYear)))
          / ((([365] : List ℚ).getD 0 0 - 0) / gDaysInYear)) :=
  C8_termStructure extA 0 100 (fun t => t + 1) (fun _ => 1) [365] 0 (by norm_num)

/-!  ### Claim C9  -/

/-- Loop invariant of the calibration loop: a successful run appends the same
block of fitted vectors to both the accumulated `parameters` rows and the
`xinits` list. -/
theorem calibLoop_ok (run : CalibRun) (finSolverType : FinSolverTypes) :
    ∀ (rem i : ℕ) (paramsRev xinits ps xs : List Vec),
      calibLoop run finSolverType i rem paramsRev xinits = .ok (ps, xs) →
      ∃ nw : List Vec, ps = paramsRev.reverse ++ nw ∧ xs = xinits ++ nw ∧
        nw.length = rem := by
  intro rem
  induction rem with
  | zero =>
    intro i paramsRev xinits ps xs h
    rw [calibLoop] at h
    cases h
    exact ⟨[], by simp, by simp, rfl⟩
  | succ n ih =>
    intro i paramsRev xinits ps xs h
    rw [calibLoop] at h
    cases hm : (_solveToHorizon (run i (xinits.getD i [])) finSolverType).1 with
    | error e => rw [hm] at h; exact absurd h (by simp)
    | ok res =>
      rw [hm] at h
      obtain ⟨nw, hps, hxs, hlen⟩ := ih (i + 1) (res :: paramsRev) (xinits ++ [res]) ps xs h
      refine ⟨res :: nw, ?_, ?_, by simp [hlen]⟩
      · rw [hps]
        simp
      · rw [hxs]
        simp

/-- Claim C9: a successful construction calibrates the expiries in index order
and warm-starts each one: the `xinits` list is exactly the zero vector of the
family's parameter length followed by the fitted parameter rows, so the guess
read for expiry `i` (`xinits[i]`) is the zero vector for `i = 0` and expiry
`i-1`'s fitted result for `i ≥ 1`. -/
theorem C9_warmStart (run : CalibRun) (finSolverType : FinSolverTypes)
    (volatility_function_type : FinVolFunctionTypes) (n : ℕ) (ps xs : List Vec)
    (h : buildVolSurfaceCalib run finSolverType volatility_function_type n = .ok (ps, xs)) :
    ps.length = n ∧
    xs = zeroVec (numParameters volatility_function_type) :: ps ∧
    xs.getD 0 [] = zeroVec (numParameters volatility_function_type) ∧
    (∀ i : ℕ, xs.getD (i + 1) [] = ps.getD i []) := by
  obtain ⟨nw, hps, hxs, hlen⟩ := calibLoop_ok run finSolverType n 0 []
    [zeroVec (numParameters volatility_function_type)] ps xs h
  simp only [List.reverse_nil, List.nil_append] at hps
  subst hps
  simp only [List.singleton_append] at hxs
  subst hxs
  exact ⟨hlen, rfl, rfl, fun i => rfl⟩

/-- Claim C9 witness: a two-expiry construction whose oracle fits
`[i+1, i+1, i+1]` at expiry `i`; the parameters rows are `[1,1,1]`, `[2,2,2]`
and the recorded `xinits` trace is the zero seed followed by those rows. -/
theorem C9_witness :
    buildVolSurfaceCalib runW FinSolverTypes.NELDER_MEAD FinVolFunctionTypes.CLARK 2
      = .ok ([[1, 1, 1], [2, 2, 2]], [[0, 0, 0], [1, 1, 1], [2, 2, 2]]) ∧
    ([[(0 : ℚ), 0, 0], [1, 1, 1], [2, 2, 2]] : List Vec)
      = zeroVec (numParameters FinVolFunctionTypes.CLARK) :: [[1, 1, 1], [2, 2, 2]] := by
  have hbuild : buildVolSurfaceCalib runW FinSolverTypes.NELDER_MEAD
      FinVolFunctionTypes.CLARK 2
      = .ok ([[1, 1, 1], [2, 2, 2]], [[0, 0, 0], [1, 1, 1], [2, 2, 2]]) := by
    rw [buildVolSurfaceCalib, show (2 : ℕ) = 0 + 1 + 1 from rfl]
    simp only [calibLoop, _solveToHorizon, runW]
    norm_num [zeroVec, List.replicate, numParameters]
  exact ⟨hbuild,
    (C9_warmStart runW FinSolverTypes.NELDER_MEAD FinVolFunctionTypes.CLARK 2 _ _
      hbuild).2.1⟩

/-!  ### Claim C10  -/

/-- The strike solve depends on the target delta only through its absolute
value. -/
theorem solveForSmileStrike_abs (ext : Externals) (impls : VolImpls)
    (s t r q : ℚ) (option_type_value : FinOptionTypes)
    (volatilityTypeValue : FinVolFunctionTypes) (deltaTarget initialGuess : ℚ)
    (parameters : Vec) :
    _solveForSmileStrike ext impls s t r q option_type_value volatilityTypeValue
        (-deltaTarget) initialGuess parameters
      = _solveForSmileStrike ext impls s t r q option_type_value volatilityTypeValue
        deltaTarget initialGuess parameters := by
  simp only [_solveForSmileStrike, abs_neg]

/-- The strike solve with option type `EUROPEAN_CALL` only evaluates
`bs_delta` at `EUROPEAN_CALL`. -/
theorem solveForSmileStrike_extEq (ext ext' : Externals) (impls : VolImpls)
    (hexp : ext'.exp = ext.exp) (hnorm : ext'.norminvcdf = ext.norminvcdf)
    (hcall : ∀ s t k r q v, ext'.bs_delta s t k r q v FinOptionTypes.EUROPEAN_CALL
        = ext.bs_delta s t k r q v FinOptionTypes.EUROPEAN_CALL)
    (s t r q : ℚ) (volatilityTypeValue : FinVolFunctionTypes)
    (deltaTarget initialGuess : ℚ) (parameters : Vec) :
    _solveForSmileStrike ext' impls s t r q FinOptionTypes.EUROPEAN_CALL
        volatilityTypeValue deltaTarget initialGuess parameters
      = _solveForSmileStrike ext impls s t r q FinOptionTypes.EUROPEAN_CALL
        volatilityTypeValue deltaTarget initialGuess parameters := by
  have hobj : _deltaFit ext' impls volatilityTypeValue s t r q
      FinOptionTypes.EUROPEAN_CALL (ext.norminvcdf |deltaTarget|) parameters
      = _deltaFit ext impls volatilityTypeValue s t r q
        FinOptionTypes.EUROPEAN_CALL (ext.norminvcdf |deltaTarget|) parameters := by
    funext k
    simp only [_deltaFit, hexp, hnorm, hcall]
  simp only [_solveForSmileStrike, hnorm, hobj]

set_option maxHeartbeats 2000000 in
/-- Claim C10: the delta query interprets its target delta only as a European
call delta: replacing the externals by ones that agree on everything except
the put branch of `bs_delta` leaves the result unchanged (the option type
handed to both bracket legs' strike solves is the hardcoded
`EUROPEAN_CALL`), and negating the target delta leaves the result unchanged
(deltas are compared only through absolute values in inverse-normal-cdf
space); the public query has no option-right parameter. -/
theorem C10_deltaQueryCallOnly {α : Type} (ext ext' : Externals) (impls : VolImpls)
    (surf : EquityVolSurface) (callDelta expiry_date : ℚ) (dm : Option α)
    (hexp : ext'.exp = ext.exp) (hnorm : ext'.norminvcdf = ext.norminvcdf)
    (hsqrt : ext'.sqrt = ext.sqrt)
    (hcall : ∀ s t k r q v, ext'.bs_delta s t k r q v FinOptionTypes.EUROPEAN_CALL
        = ext.bs_delta s t k r q v FinOptionTypes.EUROPEAN_CALL) :
    volatilityFromDeltaDate ext' impls surf callDelta expiry_date dm
      = volatilityFromDeltaDate ext impls surf callDelta expiry_date dm ∧
    volatilityFromDeltaDate ext impls surf (-callDelta) expiry_date dm
      = volatilityFromDeltaDate ext impls surf callDelta expiry_date dm := by
  constructor
  · simp only [volatilityFromDeltaDate, hsqrt,
      solveForSmileStrike_extEq ext ext' impls hexp hnorm hcall]
  · simp only [volatilityFromDeltaDate, solveForSmileStrike_abs]

/-- Claim C10 witness: `extA` and `extB` differ on the put branch of
`bs_delta` (put delta `0` versus `1/3`) yet produce identical delta-query
results, and negating the call delta also leaves the result unchanged. -/
theorem C10_witness :
    volatilityFromDeltaDate extB implsFifth surfOne (1 / 2) 365 (none : Option Unit)
      = volatilityFromDeltaDate extA implsFifth surfOne (1 / 2) 365 (none : Option Unit) ∧
    volatilityFromDeltaDate extA implsFifth surfOne (-(1 / 2)) 365 (none : Option Unit)
      = volatilityFromDeltaDate extA implsFifth surfOne (1 / 2) 365 (none : Option Unit) :=
  C10_deltaQueryCallOnly extA extB implsFifth surfOne (1 / 2) 365 none rfl rfl rfl
    (fun _ _ _ _ _ _ => rfl)

end EquityVolSurfacePy
